import Mathlib

/-!
Shallow embedding of the Transaction Ledger & Monthly Statement
Reconciliation Engine of `apps/stripe_management`:

* data model from `apps/stripe_management/models.py`;
* ledger builder / statement aggregator from
  `apps/stripe_management/management/commands/generate_monthly_statement.py`;
* payout simulator from
  `apps/stripe_management/management/commands/calculate_payouts.py`;
* opening-balance lookup of the web view from
  `apps/stripe_management/views.py` (`generate_statement`);
* CSV ingestion guard from
  `apps/stripe_management/management/commands/import_stripe_csv.py`.

Amounts are integer minor units (cents), modelled as `Int`.  Timestamps
(`stripe_created`) are modelled as integer seconds; `timedelta(days=1)`
is `oneDay = 86400`.  The period bounds that the commands derive from
`(year, month)` via `calendar.monthrange` are passed in as explicit
`startTs ≤ endTs` arguments; nothing below depends on the calendar
arithmetic itself.
-/

namespace StripeSpec

/-- Transaction status, from `Transaction.STATUS_CHOICES` in `models.py`. -/
inductive TxStatus
  | succeeded
  | pending
  | failed
  | refunded
  | canceled
deriving DecidableEq, Repr

/-- Transaction type, from `Transaction.TYPE_CHOICES` in `models.py`. -/
inductive TxType
  | charge
  | refund
  | payout
  | transfer
  | adjustment
deriving DecidableEq, Repr

/-- A Stripe transaction record (`models.py` `Transaction`).  `account` holds
the `account_id` of the owning `StripeAccount`; amounts are cents. -/
structure Transaction where
  stripe_id : String
  account : String
  amount : Int
  fee : Int
  currency : String
  status : TxStatus
  type : TxType
  stripe_created : Int
  customer_email : Option String := none
  description : String := ""
deriving DecidableEq, Repr

/-- A Stripe account (`models.py` `StripeAccount`), the fields the engine reads. -/
structure StripeAccount where
  name : String
  account_id : String
  is_active : Bool := true
deriving DecidableEq, Repr

/-- A monthly statement row (`models.py` `MonthlyStatement`), the fields the
aggregator writes.  `account` holds the `account_id`. -/
structure MonthlyStatement where
  account : String
  year : Nat
  month : Nat
  opening_balance : Int := 0
  closing_balance : Int := 0
  total_charges : Int := 0
  total_refunds : Int := 0
  total_fees : Int := 0
  total_payouts : Int := 0
deriving DecidableEq, Repr

/-! ### Fetch order

Both commands fetch with `.order_by('stripe_created')`: ascending by the
processor timestamp and nothing else.  The relative order of transactions
with equal timestamps is whatever the store presents (the query adds no
tie-break), which a stable insertion sort models faithfully: equal
timestamps keep their store order. -/

/-- Insert `t` after every element whose timestamp is `≤ t`'s. -/
def insertByTs (t : Transaction) : List Transaction → List Transaction
  | [] => [t]
  | h :: r =>
    if h.stripe_created ≤ t.stripe_created then h :: insertByTs t r
    else t :: h :: r

/-- Stable sort ascending by `stripe_created`, modelling `.order_by('stripe_created')`. -/
def sortByTs (l : List Transaction) : List Transaction :=
  l.foldl (fun acc t => insertByTs t acc) []

/-- The `generate_monthly_statement` filter: account match and
`stripe_created` in the closed period `[startTs, endTs]`. -/
def periodPred (acct : String) (startTs endTs : Int) (t : Transaction) : Bool :=
  t.account == acct && decide (startTs ≤ t.stripe_created) &&
    decide (t.stripe_created ≤ endTs)

/-- Transactions of the account in the period, ordered ascending by timestamp. -/
def fetchPeriodTxns (store : List Transaction) (acct : String)
    (startTs endTs : Int) : List Transaction :=
  sortByTs (store.filter (periodPred acct startTs endTs))

/-! ### Ledger builder
(`generate_monthly_statement.py`, the loop over `transactions` in
`Command.handle`). -/

/-- One row of the reconstructed statement (the `line` dict of the command). -/
structure LedgerLine where
  date : Int
  nature : String
  party : String
  debit : Int
  credit : Int
  balance : Int
  description : String
deriving DecidableEq, Repr

/-- Python `txn.customer_email or 'Unknown'` (`None` and `""` are falsy). -/
def orUnknown : Option String → String
  | none => "Unknown"
  | some s => if s = "" then "Unknown" else s

/-- The loop state of `Command.handle`: running balance, the four totals and
the emitted lines. -/
structure StatementAcc where
  running_balance : Int
  total_gross_payments : Int
  total_fees : Int
  total_payouts : Int
  total_refunds : Int
  lines : List LedgerLine
deriving DecidableEq, Repr

def initAcc (opening : Int) : StatementAcc :=
  { running_balance := opening, total_gross_payments := 0, total_fees := 0,
    total_payouts := 0, total_refunds := 0, lines := [] }

/-- The primary line of one transaction: the `if/elif` chain of the command.
A transaction matching no branch still appends its line (nature `""`, no
debit/credit, unchanged balance), exactly as the code does. -/
def primaryLine (acc : StatementAcc) (t : Transaction) : StatementAcc :=
  if t.type = TxType.charge ∧ t.status = TxStatus.succeeded then
    let rb := acc.running_balance + t.amount
    { acc with
      running_balance := rb,
      total_gross_payments := acc.total_gross_payments + t.amount,
      lines := acc.lines ++
        [⟨t.stripe_created, "Gross Payment", orUnknown t.customer_email,
          t.amount, 0, rb, ""⟩] }
  else if t.type = TxType.refund then
    let rb := acc.running_balance - t.amount
    { acc with
      running_balance := rb,
      total_refunds := acc.total_refunds + t.amount,
      lines := acc.lines ++
        [⟨t.stripe_created, "Refund", "Stripe", 0, t.amount, rb, ""⟩] }
  else if t.type = TxType.payout then
    let rb := acc.running_balance - t.amount
    { acc with
      running_balance := rb,
      total_payouts := acc.total_payouts + t.amount,
      lines := acc.lines ++
        [⟨t.stripe_created, "Payout", "Stripe", 0, t.amount, rb, "BOC(HK)"⟩] }
  else
    { acc with
      lines := acc.lines ++
        [⟨t.stripe_created, "", "", 0, 0, acc.running_balance, ""⟩] }

/-- The fee block after the primary line: `if txn.fee and txn.fee > 0`
(on integers this is `0 < fee`) emits a separate Processing Fee line,
whatever the transaction's type and status. -/
def feeStep (acc : StatementAcc) (t : Transaction) : StatementAcc :=
  if 0 < t.fee then
    let rb := acc.running_balance - t.fee
    { acc with
      running_balance := rb,
      total_fees := acc.total_fees + t.fee,
      lines := acc.lines ++
        [⟨t.stripe_created, "Processing Fee", "Stripe", 0, t.fee, rb,
          "Stripe processing fee"⟩] }
  else acc

/-- One iteration of the command's transaction loop. -/
def stepTxn (acc : StatementAcc) (t : Transaction) : StatementAcc :=
  feeStep (primaryLine acc t) t

/-- The whole loop: ledger lines, totals and closing balance for a period. -/
def buildLedger (opening : Int) (txns : List Transaction) : StatementAcc :=
  txns.foldl stepTxn (initAcc opening)

/-! ### Statement aggregation and persistence
(`generate_monthly_statement.py` `Command.handle`, tail). -/

/-- Account lookup of `generate_monthly_statement.py`: by `name`, then by
`account_id`. -/
def findAccount (accounts : List StripeAccount) (nameOrId : String) :
    Option StripeAccount :=
  match accounts.find? (fun a => a.name == nameOrId) with
  | some a => some a
  | none => accounts.find? (fun a => a.account_id == nameOrId)

/-- Key equality of `MonthlyStatement.objects.update_or_create`. -/
def sameKey (a b : MonthlyStatement) : Bool :=
  a.account == b.account && a.year == b.year && a.month == b.month

/-- `update_or_create` keyed by `(account, year, month)` with every field in
`defaults`: replace the keyed row if present, else append it. -/
def upsertStatement (sts : List MonthlyStatement) (s : MonthlyStatement) :
    List MonthlyStatement :=
  if sts.any (fun x => sameKey x s) then
    sts.map (fun x => if sameKey x s then s else x)
  else sts ++ [s]

/-- The `generate_monthly_statement` command.  `openingOverride` models the
`--opening-balance` option (argparse default 0); the command takes its
opening balance from this option alone.  Returns `none` only when the
account lookup fails, else the persisted statement and the statement store
after the upsert. -/
def cmdGenerateStatement (accounts : List StripeAccount)
    (store : List Transaction) (statements : List MonthlyStatement)
    (accountName : String) (year month : Nat) (startTs endTs : Int)
    (openingOverride : Option Int) :
    Option (MonthlyStatement × List MonthlyStatement) :=
  match findAccount accounts accountName with
  | none => none
  | some account =>
    let opening := openingOverride.getD 0
    let txns := fetchPeriodTxns store account.account_id startTs endTs
    let acc := buildLedger opening txns
    let stmt : MonthlyStatement :=
      { account := account.account_id, year := year, month := month,
        opening_balance := opening,
        closing_balance := acc.running_balance,
        total_charges := acc.total_gross_payments,
        total_refunds := acc.total_refunds,
        total_fees := acc.total_fees,
        total_payouts := acc.total_payouts }
    some (stmt, upsertStatement statements stmt)

/-! ### Opening balance of the web view
(`views.py` `generate_statement`): the previous period's persisted closing
balance when a matching statement exists, else 0; the view reads no
caller-supplied override at all. -/

/-- `previous_month = month - 1 if month > 1 else 12`, likewise the year. -/
def prevPeriod (year month : Nat) : Nat × Nat :=
  if 1 < month then (year, month - 1) else (year - 1, 12)

/-- The view's previous-statement filter: previous period, and the account
when one was selected. -/
def prevMatch (acct : Option String) (year month : Nat)
    (s : MonthlyStatement) : Bool :=
  s.year == (prevPeriod year month).1 && s.month == (prevPeriod year month).2 &&
    (match acct with
     | some a => s.account == a
     | none => true)

/-- `views.generate_statement`: opening balance is `prev_statement.closing_balance`
of the first match, else 0. -/
def viewOpeningBalance (statements : List MonthlyStatement)
    (acct : Option String) (year month : Nat) : Int :=
  match (statements.filter (prevMatch acct year month)).head? with
  | some s => s.closing_balance
  | none => 0

/-! ### Payout simulator
(`calculate_payouts.py` `Command.handle`). -/

/-- A scheduled payout (`payouts_to_create` entry): date, amount, and the
per-run sequence number it was scheduled with. -/
structure ScheduledPayout where
  date : Int
  amount : Int
  number : Nat
deriving DecidableEq, Repr

/-- What the simulation loop reports for a threshold crossing: a scheduled
payout, or a crossing after the cutoff, surfaced distinctly and without
creating anything. -/
inductive SimEvent
  | payoutScheduled (date amount : Int) (number : Nat)
  | payoutSkippedCutoff (date amount : Int)
deriving DecidableEq, Repr

/-- The simulation loop state: `running_balance`, `payouts_to_create`,
`payout_number` and the reported events. -/
structure SimState where
  running_balance : Int
  payouts_to_create : List ScheduledPayout
  payout_number : Nat
  events : List SimEvent
deriving DecidableEq, Repr

def initSimState : SimState :=
  { running_balance := 0, payouts_to_create := [], payout_number := 1,
    events := [] }

/-- `timedelta(days=1)` on the charge timestamp, in seconds. -/
def oneDay : Int := 86400

/-- One iteration of the charge loop: add the amount; deduct the fee when
`charge.fee` is truthy; then, if the balance reached the threshold, either
schedule a payout of the entire balance dated one day later and reset the
balance to 0 (no cutoff, or charge at or before the cutoff), or report the
crossing as skipped, leaving the balance alone. -/
def simStep (threshold : Int) (cutoff : Option Int) (st : SimState)
    (charge : Transaction) : SimState :=
  let bal1 := st.running_balance + charge.amount
  let bal2 := if charge.fee ≠ 0 then bal1 - charge.fee else bal1
  if threshold ≤ bal2 then
    let payoutDate := charge.stripe_created + oneDay
    let shouldCreate :=
      match cutoff with
      | none => true
      | some c => decide (charge.stripe_created ≤ c)
    if shouldCreate then
      { running_balance := 0,
        payouts_to_create :=
          st.payouts_to_create ++ [⟨payoutDate, bal2, st.payout_number⟩],
        payout_number := st.payout_number + 1,
        events := st.events ++ [.payoutScheduled payoutDate bal2 st.payout_number] }
    else
      { st with
        running_balance := bal2,
        events := st.events ++ [.payoutSkippedCutoff payoutDate bal2] }
  else
    { st with running_balance := bal2 }

/-- The whole simulation loop over the period's succeeded charges. -/
def runSimulation (threshold : Int) (cutoff : Option Int)
    (charges : List Transaction) : SimState :=
  charges.foldl (simStep threshold cutoff) initSimState

/-- The `calculate_payouts` charge query: account, period, `type='charge'`,
`status='succeeded'`, ordered ascending by timestamp. -/
def chargePred (acct : String) (startTs endTs : Int) (t : Transaction) : Bool :=
  periodPred acct startTs endTs t && t.type == TxType.charge &&
    t.status == TxStatus.succeeded

/-- Succeeded charges of the account in the period, ordered by timestamp. -/
def fetchCharges (store : List Transaction) (acct : String)
    (startTs endTs : Int) : List Transaction :=
  sortByTs (store.filter (chargePred acct startTs endTs))

/-- Python `f"{n:02d}"` for a natural number. -/
def pad2 (n : Nat) : String :=
  if n < 10 then "0" ++ toString n else toString n

/-- Python `f"{n:03d}"` for a natural number. -/
def pad3 (n : Nat) : String :=
  if n < 10 then "00" ++ toString n
  else if n < 100 then "0" ++ toString n
  else toString n

/-- The deterministic synthetic payout identifier the command builds:
`f"po_sim_{year}{month:02d}_{account.account_id}_{number:03d}"`. -/
def payoutSimId (year month : Nat) (accountId : String) (number : Nat) :
    String :=
  "po_sim_" ++ toString year ++ pad2 month ++ "_" ++ accountId ++ "_" ++
    pad3 number

/-- The payout `Transaction.objects.create(...)` of the command. -/
def mkPayoutTxn (year month : Nat) (account : StripeAccount)
    (p : ScheduledPayout) : Transaction :=
  { stripe_id := payoutSimId year month account.account_id p.number,
    account := account.account_id,
    amount := p.amount, fee := 0, currency := "hkd",
    status := TxStatus.succeeded, type := TxType.payout,
    stripe_created := p.date, customer_email := none,
    description := "BOC(HK)" }

/-- `Transaction.objects.filter(stripe_id=payout_id).exists()`. -/
def existsId (store : List Transaction) (id : String) : Bool :=
  store.any (fun t => t.stripe_id == id)

/-- Outcome of the creation loop for one scheduled payout. -/
inductive PayoutDecision
  | created (id : String) (amount : Int)
  | skippedExists (id : String)
deriving DecidableEq, Repr

/-- The creation loop: for each scheduled payout, skip when its synthetic id
already exists in the store, else insert the payout transaction. -/
def createPayouts (year month : Nat) (account : StripeAccount) :
    List ScheduledPayout → List Transaction →
      List Transaction × List PayoutDecision
  | [], store => (store, [])
  | p :: rest, store =>
    let id := payoutSimId year month account.account_id p.number
    if existsId store id then
      let r := createPayouts year month account rest store
      (r.1, PayoutDecision.skippedExists id :: r.2)
    else
      let r := createPayouts year month account rest
        (store ++ [mkPayoutTxn year month account p])
      (r.1, PayoutDecision.created id p.amount :: r.2)

/-- The run's report: charges processed, the simulation loop's crossing
events, the creation loop's decisions, and the final unresolved balance. -/
structure SimReport where
  chargesProcessed : Nat
  events : List SimEvent
  decisions : List PayoutDecision
  finalBalance : Int
deriving DecidableEq, Repr

/-- The `calculate_payouts` command.  Account lookup is by `name` only.
Returns `none` when the account is unknown; when the period has no
succeeded charges the command returns early having touched nothing;
with `dryRun` the creation loop is not run. -/
def calculatePayouts (accounts : List StripeAccount)
    (store : List Transaction) (accountName : String) (year month : Nat)
    (startTs endTs : Int) (threshold : Int) (cutoff : Option Int)
    (dryRun : Bool) : Option (SimReport × List Transaction) :=
  match accounts.find? (fun a => a.name == accountName) with
  | none => none
  | some account =>
    let charges := fetchCharges store account.account_id startTs endTs
    if charges.isEmpty then
      some ({ chargesProcessed := 0, events := [], decisions := [],
              finalBalance := 0 }, store)
    else
      let st := runSimulation threshold cutoff charges
      if dryRun then
        some ({ chargesProcessed := charges.length, events := st.events,
                decisions := [], finalBalance := st.running_balance }, store)
      else
        let r := createPayouts year month account st.payouts_to_create store
        some ({ chargesProcessed := charges.length, events := st.events,
                decisions := r.2, finalBalance := st.running_balance }, r.1)

/-! ### CSV ingestion guard
(`import_stripe_csv.py`): a row with an empty id is skipped; a row whose
`stripe_id` already exists in the store is skipped; otherwise the
transaction is inserted.  This — together with the `unique=True` column —
is where `(account, stripe_id)` uniqueness is enforced. -/

/-- Ingest one row. -/
def ingestRow (store : List Transaction) (t : Transaction) :
    List Transaction :=
  if t.stripe_id = "" then store
  else if existsId store t.stripe_id then store
  else store ++ [t]

/-- Ingest a sequence of rows. -/
def ingestAll (store : List Transaction) (rows : List Transaction) :
    List Transaction :=
  rows.foldl ingestRow store

/-! ### Per-transaction contributions

Each iteration of the ledger loop changes the running balance and each
total by an amount depending on the transaction alone; the four deltas
below mirror the command's `if/elif` chain branch for branch. -/

/-- Contribution of a transaction to `total_gross_payments`. -/
def chargeDelta (t : Transaction) : Int :=
  if t.type = TxType.charge ∧ t.status = TxStatus.succeeded then t.amount
  else 0

/-- Contribution of a transaction to `total_refunds`. -/
def refundDelta (t : Transaction) : Int :=
  if t.type = TxType.charge ∧ t.status = TxStatus.succeeded then 0
  else if t.type = TxType.refund then t.amount
  else 0

/-- Contribution of a transaction to `total_payouts`. -/
def payoutDelta (t : Transaction) : Int :=
  if t.type = TxType.charge ∧ t.status = TxStatus.succeeded then 0
  else if t.type = TxType.refund then 0
  else if t.type = TxType.payout then t.amount
  else 0

/-- Contribution of a transaction to `total_fees`: its fee whenever the fee
is positive, independent of type and status. -/
def feeDelta (t : Transaction) : Int :=
  if 0 < t.fee then t.fee else 0

/-- Net change of the running balance caused by one transaction. -/
def balDelta (t : Transaction) : Int :=
  chargeDelta t - refundDelta t - payoutDelta t - feeDelta t

theorem stepTxn_running (acc : StatementAcc) (t : Transaction) :
    (stepTxn acc t).running_balance = acc.running_balance + balDelta t := by
  simp only [stepTxn, feeStep, primaryLine, balDelta, chargeDelta,
    refundDelta, payoutDelta, feeDelta]
  split_ifs <;> simp <;> ring

theorem stepTxn_charges (acc : StatementAcc) (t : Transaction) :
    (stepTxn acc t).total_gross_payments =
      acc.total_gross_payments + chargeDelta t := by
  simp only [stepTxn, feeStep, primaryLine, chargeDelta]
  split_ifs <;> simp

theorem stepTxn_refunds (acc : StatementAcc) (t : Transaction) :
    (stepTxn acc t).total_refunds = acc.total_refunds + refundDelta t := by
  simp only [stepTxn, feeStep, primaryLine, refundDelta]
  split_ifs <;> simp

theorem stepTxn_payouts (acc : StatementAcc) (t : Transaction) :
    (stepTxn acc t).total_payouts = acc.total_payouts + payoutDelta t := by
  simp only [stepTxn, feeStep, primaryLine, payoutDelta]
  split_ifs <;> simp

theorem stepTxn_fees (acc : StatementAcc) (t : Transaction) :
    (stepTxn acc t).total_fees = acc.total_fees + feeDelta t := by
  simp only [stepTxn, feeStep, primaryLine, feeDelta]
  split_ifs <;> simp

theorem foldl_stepTxn_running (l : List Transaction) (acc : StatementAcc) :
    (l.foldl stepTxn acc).running_balance =
      acc.running_balance + (l.map balDelta).sum := by
  induction l generalizing acc with
  | nil => simp
  | cons t r ih =>
    simp only [List.foldl_cons, List.map_cons, List.sum_cons, ih,
      stepTxn_running]
    ring

theorem foldl_stepTxn_charges (l : List Transaction) (acc : StatementAcc) :
    (l.foldl stepTxn acc).total_gross_payments =
      acc.total_gross_payments + (l.map chargeDelta).sum := by
  induction l generalizing acc with
  | nil => simp
  | cons t r ih =>
    simp only [List.foldl_cons, List.map_cons, List.sum_cons, ih,
      stepTxn_charges]
    ring

theorem foldl_stepTxn_refunds (l : List Transaction) (acc : StatementAcc) :
    (l.foldl stepTxn acc).total_refunds =
      acc.total_refunds + (l.map refundDelta).sum := by
  induction l generalizing acc with
  | nil => simp
  | cons t r ih =>
    simp only [List.foldl_cons, List.map_cons, List.sum_cons, ih,
      stepTxn_refunds]
    ring

theorem foldl_stepTxn_payouts (l : List Transaction) (acc : StatementAcc) :
    (l.foldl stepTxn acc).total_payouts =
      acc.total_payouts + (l.map payoutDelta).sum := by
  induction l generalizing acc with
  | nil => simp
  | cons t r ih =>
    simp only [List.foldl_cons, List.map_cons, List.sum_cons, ih,
      stepTxn_payouts]
    ring

theorem foldl_stepTxn_fees (l : List Transaction) (acc : StatementAcc) :
    (l.foldl stepTxn acc).total_fees =
      acc.total_fees + (l.map feeDelta).sum := by
  induction l generalizing acc with
  | nil => simp
  | cons t r ih =>
    simp only [List.foldl_cons, List.map_cons, List.sum_cons, ih,
      stepTxn_fees]
    ring

theorem sum_balDelta (l : List Transaction) :
    (l.map balDelta).sum =
      (l.map chargeDelta).sum - (l.map refundDelta).sum -
        (l.map payoutDelta).sum - (l.map feeDelta).sum := by
  induction l with
  | nil => simp
  | cons t r ih =>
    simp only [List.map_cons, List.sum_cons, ih, balDelta]
    ring

theorem buildLedger_fields (opening : Int) (l : List Transaction) :
    (buildLedger opening l).running_balance =
        opening + (l.map balDelta).sum ∧
      (buildLedger opening l).total_gross_payments = (l.map chargeDelta).sum ∧
      (buildLedger opening l).total_refunds = (l.map refundDelta).sum ∧
      (buildLedger opening l).total_payouts = (l.map payoutDelta).sum ∧
      (buildLedger opening l).total_fees = (l.map feeDelta).sum := by
  unfold buildLedger
  refine ⟨?_, ?_, ?_, ?_, ?_⟩
  · rw [foldl_stepTxn_running]; rfl
  · rw [foldl_stepTxn_charges]; simp [initAcc]
  · rw [foldl_stepTxn_refunds]; simp [initAcc]
  · rw [foldl_stepTxn_payouts]; simp [initAcc]
  · rw [foldl_stepTxn_fees]; simp [initAcc]

/-! ### Concrete fixtures used by witnesses and counterexamples -/

/-- A sample account. -/
def acctAcme : StripeAccount := { name := "Acme", account_id := "acct_1" }

/-- A succeeded charge on `acct_1`. -/
def mkCharge (id : String) (amt ts fee : Int) : Transaction :=
  { stripe_id := id, account := "acct_1", amount := amt, fee := fee,
    currency := "hkd", status := TxStatus.succeeded, type := TxType.charge,
    stripe_created := ts }

/-- A refund on `acct_1` carrying a fee. -/
def refundR1 : Transaction :=
  { stripe_id := "r1", account := "acct_1", amount := 10, fee := 2,
    currency := "hkd", status := TxStatus.succeeded, type := TxType.refund,
    stripe_created := 150 }

/-- Store with three charges and a refund. -/
def storeMixed : List Transaction :=
  [mkCharge "c1" 50 100 0, mkCharge "c2" 30 200 0, mkCharge "c3" 40 300 0,
   refundR1]

/-- The statement `cmdGenerateStatement` produces from `storeMixed` with
opening override 7. -/
def stmtMixed : MonthlyStatement :=
  { account := "acct_1", year := 2025, month := 1, opening_balance := 7,
    closing_balance := 115, total_charges := 120, total_refunds := 10,
    total_fees := 2, total_payouts := 0 }

/-! ### C1 — balance invariant of the persisted statement -/

/-- C1: for every account, period, opening balance and transaction store, the
MonthlyStatement produced and persisted by statement generation satisfies
closing_balance = opening_balance + total_charges - total_fees -
total_refunds - total_payouts, the four totals being the statement's own
persisted category totals. -/
theorem statement_balance_invariant (accounts : List StripeAccount)
    (store : List Transaction) (statements : List MonthlyStatement)
    (accountName : String) (year month : Nat) (startTs endTs : Int)
    (ob : Option Int) (stmt : MonthlyStatement)
    (sts' : List MonthlyStatement)
    (h : cmdGenerateStatement accounts store statements accountName year
      month startTs endTs ob = some (stmt, sts')) :
    stmt.closing_balance =
      stmt.opening_balance + stmt.total_charges - stmt.total_fees -
        stmt.total_refunds - stmt.total_payouts := by
  cases hacc : findAccount accounts accountName with
  | none => simp [cmdGenerateStatement, hacc] at h
  | some account =>
    simp only [cmdGenerateStatement, hacc, Option.some.injEq,
      Prod.mk.injEq] at h
    obtain ⟨hstmt, -⟩ := h
    obtain ⟨hrb, hc, hr, hp, hfe⟩ :=
      buildLedger_fields (ob.getD 0)
        (fetchPeriodTxns store account.account_id startTs endTs)
    rw [← hstmt]
    simp only []
    rw [hrb, hc, hr, hp, hfe, sum_balDelta]
    ring

/-- Witness for C1 at a concrete store of three charges and a fee-carrying
refund, opening override 7. -/
theorem statement_balance_invariant_witness :
    stmtMixed.closing_balance =
      stmtMixed.opening_balance + stmtMixed.total_charges -
        stmtMixed.total_fees - stmtMixed.total_refunds -
        stmtMixed.total_payouts :=
  statement_balance_invariant [acctAcme] storeMixed [] "Acme" 2025 1 0 1000
    (some 7) stmtMixed [stmtMixed] (by rfl)

/-! ### C9 — fee handling is independent of transaction type and status -/

theorem stepTxn_lines_sub (acc : StatementAcc) (t : Transaction) :
    acc.lines ⊆ (stepTxn acc t).lines := by
  simp only [stepTxn, feeStep, primaryLine]
  split_ifs <;> intro x hx <;> simp [hx]

theorem foldl_lines_sub (l : List Transaction) (acc : StatementAcc) :
    acc.lines ⊆ (l.foldl stepTxn acc).lines := by
  induction l generalizing acc with
  | nil => simp
  | cons u r ih =>
    intro x hx
    exact ih (stepTxn acc u) (stepTxn_lines_sub acc u hx)

theorem fee_line_mem_step (acc : StatementAcc) (t : Transaction)
    (hf : 0 < t.fee) :
    (⟨t.stripe_created, "Processing Fee", "Stripe", 0, t.fee,
        (primaryLine acc t).running_balance - t.fee,
        "Stripe processing fee"⟩ : LedgerLine) ∈ (stepTxn acc t).lines := by
  simp [stepTxn, feeStep, hf]

theorem fee_line_in_foldl (l : List Transaction) (acc : StatementAcc)
    (t : Transaction) (ht : t ∈ l) (hf : 0 < t.fee) :
    ∃ ln ∈ (l.foldl stepTxn acc).lines,
      ln.nature = "Processing Fee" ∧ ln.credit = t.fee ∧
        ln.date = t.stripe_created ∧
        ln.description = "Stripe processing fee" := by
  induction l generalizing acc with
  | nil => cases ht
  | cons u r ih =>
    rcases List.mem_cons.mp ht with h | h
    · subst h
      refine ⟨⟨t.stripe_created, "Processing Fee", "Stripe", 0, t.fee,
        (primaryLine acc t).running_balance - t.fee,
        "Stripe processing fee"⟩, ?_, rfl, rfl, rfl, rfl⟩
      exact foldl_lines_sub r (stepTxn acc t)
        (fee_line_mem_step acc t hf)
    · exact ih (stepTxn acc u) h

/-- C9: for every transaction of the period with positive fee — whatever its
type and status — the ledger builder emits a separate Processing Fee line,
deducts the fee from the running balance and adds it to total_fees; a failed
charge with a positive fee therefore lowers the closing balance and appears
in total_fees while its amount contributes nothing to total_charges. -/
theorem fee_independent_of_type_status (o : Int) (l : List Transaction)
    (t : Transaction) (ht : t ∈ l) (hf : 0 < t.fee) :
    (∃ ln ∈ (buildLedger o l).lines,
        ln.nature = "Processing Fee" ∧ ln.credit = t.fee ∧
          ln.date = t.stripe_created ∧
          ln.description = "Stripe processing fee")
    ∧ (buildLedger o l).total_fees = (l.map feeDelta).sum
    ∧ feeDelta t = t.fee
    ∧ (buildLedger o l).running_balance = o + (l.map balDelta).sum
    ∧ (t.type = TxType.charge → t.status = TxStatus.failed →
        balDelta t = -t.fee ∧ chargeDelta t = 0) := by
  obtain ⟨hrb, -, -, -, hfe⟩ := buildLedger_fields o l
  refine ⟨fee_line_in_foldl l (initAcc o) t ht hf, hfe, ?_, hrb, ?_⟩
  · simp [feeDelta, hf]
  · intro hty hst
    constructor
    · simp [balDelta, chargeDelta, refundDelta, payoutDelta, feeDelta,
        hty, hst, hf]
    · simp [chargeDelta, hty, hst]

/-- A failed charge that still carries a Stripe processing fee. -/
def failedCharge : Transaction :=
  { stripe_id := "cf", account := "acct_1", amount := 100, fee := 3,
    currency := "hkd", status := TxStatus.failed, type := TxType.charge,
    stripe_created := 120 }

/-- Witness for C9 at a concrete period holding one succeeded charge and one
failed charge with fee 3. -/
theorem fee_independent_of_type_status_witness :
    (∃ ln ∈ (buildLedger 0 [mkCharge "c1" 50 100 0, failedCharge]).lines,
        ln.nature = "Processing Fee" ∧ ln.credit = failedCharge.fee ∧
          ln.date = failedCharge.stripe_created ∧
          ln.description = "Stripe processing fee")
    ∧ (buildLedger 0 [mkCharge "c1" 50 100 0, failedCharge]).total_fees =
        ([mkCharge "c1" 50 100 0, failedCharge].map feeDelta).sum
    ∧ feeDelta failedCharge = failedCharge.fee
    ∧ (buildLedger 0 [mkCharge "c1" 50 100 0, failedCharge]).running_balance =
        0 + ([mkCharge "c1" 50 100 0, failedCharge].map balDelta).sum
    ∧ (failedCharge.type = TxType.charge →
        failedCharge.status = TxStatus.failed →
          balDelta failedCharge = -failedCharge.fee ∧
            chargeDelta failedCharge = 0) :=
  fee_independent_of_type_status 0 [mkCharge "c1" 50 100 0, failedCharge]
    failedCharge (by simp) (by decide)

/-! ### C6 — determinism of the ledger under re-presentation

The query orders by `stripe_created` alone; it adds no tie-break on the
processor identifier.  Equal timestamps therefore keep whatever order the
store presents, and the emitted line sequence can differ between two
presentations of the same transaction set.  The closing balance and the
four totals are nevertheless presentation-independent, and with pairwise
distinct timestamps the whole output is. -/

/-- A charge and a refund sharing the same timestamp. -/
def txTieA : Transaction :=
  { stripe_id := "a", account := "acct_1", amount := 100, fee := 0,
    currency := "hkd", status := TxStatus.succeeded, type := TxType.charge,
    stripe_created := 10 }

def txTieB : Transaction :=
  { stripe_id := "b", account := "acct_1", amount := 50, fee := 0,
    currency := "hkd", status := TxStatus.succeeded, type := TxType.refund,
    stripe_created := 10 }

/-- Counterexample to C6: two stores presenting the same two-transaction set
(a charge and a refund with equal timestamps) both fetch in
timestamp-ascending order, yet the ledger builder emits different line
sequences — the claimed stripe_id tie-break does not exist in the code. -/
theorem ledger_tie_breaking_counterexample :
    ([txTieA, txTieB] : List Transaction).Perm [txTieB, txTieA]
    ∧ [txTieA, txTieB].Pairwise
        (fun a b => a.stripe_created ≤ b.stripe_created)
    ∧ [txTieB, txTieA].Pairwise
        (fun a b => a.stripe_created ≤ b.stripe_created)
    ∧ fetchPeriodTxns [txTieA, txTieB] "acct_1" 0 1000 = [txTieA, txTieB]
    ∧ fetchPeriodTxns [txTieB, txTieA] "acct_1" 0 1000 = [txTieB, txTieA]
    ∧ (buildLedger 0 (fetchPeriodTxns [txTieA, txTieB] "acct_1" 0 1000)).lines
        ≠ (buildLedger 0 (fetchPeriodTxns [txTieB, txTieA] "acct_1" 0 1000)).lines := by
  refine ⟨by decide, by decide, by decide, by decide, by decide, by decide⟩

/-- C6 as amended: the fetch sorts by timestamp only, so the ledger output is
a function of the transaction set only up to timestamp ties: for any two
presentations of the same set the closing balance and all four totals agree,
and when the timestamps are pairwise distinct the entire output (the line
sequence included) agrees. -/
theorem ledger_determinism_amended (o : Int) (l1 l2 : List Transaction)
    (hp : l1.Perm l2) :
    ((buildLedger o l1).running_balance = (buildLedger o l2).running_balance
      ∧ (buildLedger o l1).total_gross_payments =
          (buildLedger o l2).total_gross_payments
      ∧ (buildLedger o l1).total_refunds = (buildLedger o l2).total_refunds
      ∧ (buildLedger o l1).total_payouts = (buildLedger o l2).total_payouts
      ∧ (buildLedger o l1).total_fees = (buildLedger o l2).total_fees)
    ∧ (l1.Pairwise (fun a b => a.stripe_created < b.stripe_created) →
        l2.Pairwise (fun a b => a.stripe_created < b.stripe_created) →
          buildLedger o l1 = buildLedger o l2) := by
  constructor
  · obtain ⟨hrb1, hc1, hr1, hp1, hf1⟩ := buildLedger_fields o l1
    obtain ⟨hrb2, hc2, hr2, hp2, hf2⟩ := buildLedger_fields o l2
    refine ⟨?_, ?_, ?_, ?_, ?_⟩
    · rw [hrb1, hrb2, (hp.map balDelta).sum_eq]
    · rw [hc1, hc2, (hp.map chargeDelta).sum_eq]
    · rw [hr1, hr2, (hp.map refundDelta).sum_eq]
    · rw [hp1, hp2, (hp.map payoutDelta).sum_eq]
    · rw [hf1, hf2, (hp.map feeDelta).sum_eq]
  · intro hs1 hs2
    haveI : IsAntisymm Transaction
        (fun a b => a.stripe_created < b.stripe_created) :=
      ⟨fun a b h1 h2 => absurd h2 (not_lt.mpr (le_of_lt h1))⟩
    rw [List.eq_of_perm_of_sorted hp hs1 hs2]

/-- Witness for C6's amended statement: two presentations of a set with
distinct timestamps. -/
theorem ledger_determinism_amended_witness :
    (((buildLedger 0 [mkCharge "c1" 50 100 0, refundR1]).running_balance =
        (buildLedger 0 [refundR1, mkCharge "c1" 50 100 0]).running_balance
      ∧ (buildLedger 0 [mkCharge "c1" 50 100 0, refundR1]).total_gross_payments =
          (buildLedger 0 [refundR1, mkCharge "c1" 50 100 0]).total_gross_payments
      ∧ (buildLedger 0 [mkCharge "c1" 50 100 0, refundR1]).total_refunds =
          (buildLedger 0 [refundR1, mkCharge "c1" 50 100 0]).total_refunds
      ∧ (buildLedger 0 [mkCharge "c1" 50 100 0, refundR1]).total_payouts =
          (buildLedger 0 [refundR1, mkCharge "c1" 50 100 0]).total_payouts
      ∧ (buildLedger 0 [mkCharge "c1" 50 100 0, refundR1]).total_fees =
          (buildLedger 0 [refundR1, mkCharge "c1" 50 100 0]).total_fees)
    ∧ ([mkCharge "c1" 50 100 0, refundR1].Pairwise
          (fun a b => a.stripe_created < b.stripe_created) →
        [refundR1, mkCharge "c1" 50 100 0].Pairwise
          (fun a b => a.stripe_created < b.stripe_created) →
          buildLedger 0 [mkCharge "c1" 50 100 0, refundR1] =
            buildLedger 0 [refundR1, mkCharge "c1" 50 100 0])) :=
  ledger_determinism_amended 0 [mkCharge "c1" 50 100 0, refundR1]
    [refundR1, mkCharge "c1" 50 100 0] (by decide)

/-! ### C10 — value conservation in the payout simulation -/

/-- The fee deduction `if charge.fee: running_balance -= charge.fee` always
amounts to subtracting the fee. -/
theorem sub_fee_if (b f : Int) : (if f ≠ 0 then b - f else b) = b - f := by
  split_ifs with h
  · rfl
  · rw [not_not.mp h]; ring

theorem simStep_conservation (th : Int) (c : Option Int) (st : SimState)
    (ch : Transaction) :
    ((simStep th c st ch).payouts_to_create.map ScheduledPayout.amount).sum
        + (simStep th c st ch).running_balance
      = (st.payouts_to_create.map ScheduledPayout.amount).sum
          + st.running_balance + (ch.amount - ch.fee) := by
  rcases c with _ | c0 <;>
    simp only [simStep, sub_fee_if] <;>
    split_ifs <;>
    simp [List.map_append, List.sum_append] <;>
    ring

theorem sim_conservation (th : Int) (c : Option Int)
    (charges : List Transaction) (st : SimState) :
    (((charges.foldl (simStep th c) st).payouts_to_create.map
          ScheduledPayout.amount).sum
        + (charges.foldl (simStep th c) st).running_balance)
      = (st.payouts_to_create.map ScheduledPayout.amount).sum
          + st.running_balance
          + (charges.map (fun t => t.amount - t.fee)).sum := by
  induction charges generalizing st with
  | nil => simp
  | cons ch r ih =>
    simp only [List.foldl_cons, List.map_cons, List.sum_cons, ih,
      simStep_conservation]
    ring

/-- C10: in every payout-simulation run value is conserved — the scheduled
payout amounts plus the final remaining balance equal the sum over the
processed charges of amount minus fee — and whenever a step schedules a
payout, the payout's amount is the entire accumulated balance at the
trigger point and the balance is exactly 0 immediately afterwards. -/
theorem payout_value_conservation (th : Int) (c : Option Int)
    (charges : List Transaction) :
    (((runSimulation th c charges).payouts_to_create.map
          ScheduledPayout.amount).sum
        + (runSimulation th c charges).running_balance
      = (charges.map (fun t => t.amount - t.fee)).sum)
    ∧ ∀ st0 ch,
        (simStep th c st0 ch).payouts_to_create ≠ st0.payouts_to_create →
          (simStep th c st0 ch).payouts_to_create =
              st0.payouts_to_create ++
                [⟨ch.stripe_created + oneDay,
                  st0.running_balance + ch.amount - ch.fee,
                  st0.payout_number⟩]
            ∧ (simStep th c st0 ch).running_balance = 0 := by
  constructor
  · have h := sim_conservation th c charges initSimState
    simpa [runSimulation, initSimState] using h
  · intro st0 ch hne
    rcases c with _ | c0 <;>
      simp only [simStep, sub_fee_if] at hne ⊢ <;>
      split_ifs at hne ⊢ <;>
      simp_all

/-! ### C3 — where the opening balance comes from

The CLI command takes its opening balance from the `--opening-balance`
option alone (default 0) and never consults prior statements; the web view
takes the prior period's persisted closing balance (default 0) and accepts
no caller override.  Neither path implements "prefer the prior statement,
else the override, else 0". -/

/-- A persisted statement for the prior period (December 2024) with closing
balance 777. -/
def priorStmt : MonthlyStatement :=
  { account := "acct_1", year := 2024, month := 12, opening_balance := 0,
    closing_balance := 777, total_charges := 0, total_refunds := 0,
    total_fees := 0, total_payouts := 0 }

/-- Counterexample to C3: a prior statement with closing balance 777 is
persisted (and the view would indeed pick 777), yet the command generating
January 2025 with an explicit override of 55 uses 55, not the prior
closing balance — the command never prefers the prior statement. -/
theorem opening_balance_counterexample :
    (cmdGenerateStatement [acctAcme] [] [priorStmt] "Acme" 2025 1 0 1000
        (some 55)).map (fun r => r.1.opening_balance) = some 55
    ∧ viewOpeningBalance [priorStmt] (some "acct_1") 2025 1 = 777
    ∧ (cmdGenerateStatement [acctAcme] [] [priorStmt] "Acme" 2025 1 0 1000
        (some 55)).map (fun r => r.1.opening_balance) ≠ some 777 := by
  refine ⟨by decide, by decide, by decide⟩

/-- C3 as amended: the command's opening balance is exactly the caller
override (argparse default 0) and its output is independent of the
statement store; separately, the view's opening balance is the first
matching prior-period statement's closing balance. -/
theorem opening_balance_amended (accounts : List StripeAccount)
    (store : List Transaction) (sts1 sts2 : List MonthlyStatement)
    (accountName : String) (year month : Nat) (startTs endTs : Int)
    (ob : Option Int) (stmt1 stmt2 : MonthlyStatement)
    (r1 r2 : List MonthlyStatement)
    (statements : List MonthlyStatement) (acct : Option String)
    (s : MonthlyStatement)
    (h1 : cmdGenerateStatement accounts store sts1 accountName year month
      startTs endTs ob = some (stmt1, r1))
    (h2 : cmdGenerateStatement accounts store sts2 accountName year month
      startTs endTs ob = some (stmt2, r2))
    (hs : (statements.filter (prevMatch acct year month)).head? = some s) :
    stmt1.opening_balance = ob.getD 0
    ∧ stmt1 = stmt2
    ∧ viewOpeningBalance statements acct year month = s.closing_balance := by
  cases hacc : findAccount accounts accountName with
  | none => simp [cmdGenerateStatement, hacc] at h1
  | some account =>
    simp only [cmdGenerateStatement, hacc, Option.some.injEq,
      Prod.mk.injEq] at h1 h2
    obtain ⟨hstmt1, -⟩ := h1
    obtain ⟨hstmt2, -⟩ := h2
    refine ⟨?_, ?_, ?_⟩
    · rw [← hstmt1]
    · rw [← hstmt1, ← hstmt2]
    · simp [viewOpeningBalance, hs]

/-- The statement produced from an empty store with override 55. -/
def stmtOverride : MonthlyStatement :=
  { account := "acct_1", year := 2025, month := 1, opening_balance := 55,
    closing_balance := 55, total_charges := 0, total_refunds := 0,
    total_fees := 0, total_payouts := 0 }

/-- Witness for C3's amended statement at a concrete prior statement and a
concrete override. -/
theorem opening_balance_amended_witness :
    stmtOverride.opening_balance = (some (55 : Int)).getD 0
    ∧ stmtOverride = stmtOverride
    ∧ viewOpeningBalance [priorStmt] (some "acct_1") 2025 1 =
        priorStmt.closing_balance :=
  opening_balance_amended [acctAcme] [] [] [priorStmt] "Acme" 2025 1 0 1000
    (some 55) stmtOverride stmtOverride [stmtOverride]
    [priorStmt, stmtOverride] [priorStmt] (some "acct_1") priorStmt
    (by rfl) (by rfl) (by rfl)

/-! ### C4 — the synthetic payout identifier -/

/-- Store holding one succeeded charge large enough to trigger a payout. -/
def storeOne : List Transaction := [mkCharge "c1" 100 100 0]

/-- Counterexample to C4: the identifier the simulator actually builds is
`po_sim_<year><month padded to 2>_<account>_<seq padded to 3>`, not
`payout_sim_<year><month>_<account>_<seq>`: the single payout created from
`storeOne` carries `po_sim_202501_acct_1_001`, which is not of the form
`payout_sim_...` at all. -/
theorem payout_id_format_counterexample :
    payoutSimId 2025 1 "acct_1" 1 = "po_sim_202501_acct_1_001"
    ∧ ((calculatePayouts [acctAcme] storeOne "Acme" 2025 1 0 1000 90 none
          false).map (fun r => r.2.map Transaction.stripe_id))
        = some ["c1", "po_sim_202501_acct_1_001"]
    ∧ ∀ rest : String, "po_sim_202501_acct_1_001" ≠ "payout_sim_" ++ rest := by
  refine ⟨by rfl, by rfl, ?_⟩
  intro rest h
  have hd := congrArg String.data h
  rw [String.data_append] at hd
  have e1 : ("po_sim_202501_acct_1_001" : String).data =
      ['p','o','_','s','i','m','_','2','0','2','5','0','1','_','a','c','c',
       't','_','1','_','0','0','1'] := rfl
  have e2 : ("payout_sim_" : String).data =
      ['p','a','y','o','u','t','_','s','i','m','_'] := rfl
  rw [e1, e2] at hd
  simp at hd

/-- The numbering invariant of the simulation loop: the scheduled payouts
carry consecutive numbers from 1, and `payout_number` is the next one. -/
def NumInv (st : SimState) : Prop :=
  st.payouts_to_create.map ScheduledPayout.number =
      List.range' 1 st.payouts_to_create.length
    ∧ st.payout_number = st.payouts_to_create.length + 1

theorem simStep_numinv (th : Int) (c : Option Int) (st : SimState)
    (ch : Transaction) (h : NumInv st) : NumInv (simStep th c st ch) := by
  obtain ⟨h1, h2⟩ := h
  rcases c with _ | c0 <;>
    simp only [simStep, sub_fee_if] <;>
    split_ifs <;>
    constructor <;>
    simp [NumInv, h1, h2, List.range'_concat, Nat.add_comm]

theorem runSimulation_numinv (th : Int) (c : Option Int)
    (charges : List Transaction) : NumInv (runSimulation th c charges) := by
  have key : ∀ (l : List Transaction) (st : SimState), NumInv st →
      NumInv (l.foldl (simStep th c) st) := by
    intro l
    induction l with
    | nil => intro st h; exact h
    | cons ch r ih => intro st h; exact ih _ (simStep_numinv th c st ch h)
  exact key charges initSimState ⟨rfl, rfl⟩

theorem createPayouts_mem (year month : Nat) (account : StripeAccount) :
    ∀ (ps : List ScheduledPayout) (store : List Transaction)
      (t : Transaction),
      t ∈ (createPayouts year month account ps store).1 →
        t ∈ store ∨ ∃ p ∈ ps, t = mkPayoutTxn year month account p := by
  intro ps
  induction ps with
  | nil => intro store t h; exact Or.inl (by simpa [createPayouts] using h)
  | cons p rest ih =>
    intro store t h
    simp only [createPayouts] at h
    split_ifs at h
    · rcases ih store t h with h' | ⟨q, hq, ht⟩
      · exact Or.inl h'
      · exact Or.inr ⟨q, by simp [hq], ht⟩
    · rcases ih (store ++ [mkPayoutTxn year month account p]) t h with
        h' | ⟨q, hq, ht⟩
      · rcases List.mem_append.mp h' with h'' | h''
        · exact Or.inl h''
        · exact Or.inr ⟨p, by simp, by simpa using h''⟩
      · exact Or.inr ⟨q, by simp [hq], ht⟩

/-- C4 as amended: the per-run sequence numbers of the scheduled payouts are
exactly 1, 2, ..., k in order (the counter advances once per scheduled
payout), and with `dry_run=false` every transaction the run adds to the
store is the payout transaction of a scheduled payout, whose identifier is
`payoutSimId year month account_id number` — that is,
`po_sim_<year><month:02d>_<account>_<number:03d>`. -/
theorem payout_id_amended (th : Int) (c : Option Int)
    (charges : List Transaction) (year month : Nat)
    (account : StripeAccount) (store store2 : List Transaction)
    (ds : List PayoutDecision)
    (hrun : createPayouts year month account
      (runSimulation th c charges).payouts_to_create store = (store2, ds)) :
    ((runSimulation th c charges).payouts_to_create.map
        ScheduledPayout.number =
      List.range' 1 (runSimulation th c charges).payouts_to_create.length)
    ∧ ∀ t ∈ store2, t ∈ store ∨
        ∃ p ∈ (runSimulation th c charges).payouts_to_create,
          t = mkPayoutTxn year month account p ∧
            t.stripe_id = payoutSimId year month account.account_id
              p.number := by
  constructor
  · exact (runSimulation_numinv th c charges).1
  · intro t ht
    have ht2 : t ∈ (createPayouts year month account
        (runSimulation th c charges).payouts_to_create store).1 := by
      rw [hrun]; exact ht
    rcases createPayouts_mem year month account _ store t ht2 with h | ⟨p, hp, hmk⟩
    · exact Or.inl h
    · exact Or.inr ⟨p, hp, hmk, by rw [hmk]; rfl⟩

/-- Witness for C4's amended statement at the one-charge store. -/
theorem payout_id_amended_witness :
    ((runSimulation 90 none storeOne).payouts_to_create.map
        ScheduledPayout.number =
      List.range' 1 (runSimulation 90 none storeOne).payouts_to_create.length)
    ∧ ∀ t ∈ (storeOne ++ [mkPayoutTxn 2025 1 acctAcme ⟨100 + oneDay, 100, 1⟩]),
        t ∈ storeOne ∨
          ∃ p ∈ (runSimulation 90 none storeOne).payouts_to_create,
            t = mkPayoutTxn 2025 1 acctAcme p ∧
              t.stripe_id = payoutSimId 2025 1 acctAcme.account_id
                p.number :=
  payout_id_amended 90 none storeOne 2025 1 acctAcme storeOne
    (storeOne ++ [mkPayoutTxn 2025 1 acctAcme ⟨100 + oneDay, 100, 1⟩])
    [PayoutDecision.created "po_sim_202501_acct_1_001" 100] (by rfl)

/-! ### C5 — where duplicate identifiers are rejected

Statement generation performs no duplicate check at all: fed a period with
two records sharing a `stripe_id`, it sums both and persists the result.
What prevents duplicates is the Transaction Store itself: the `unique=True`
column and the ingestion guard that skips any row whose `stripe_id` is
already present. -/

/-- Two transactions sharing the `stripe_id` `ch_1`. -/
def dupStore : List Transaction :=
  [mkCharge "ch_1" 100 100 0, mkCharge "ch_1" 100 200 0]

/-- Counterexample to C5: a period whose transaction set carries a duplicate
`stripe_id` is not rejected — statement generation succeeds, silently sums
the duplicate twice (total_charges 200 from two copies of a 100 charge) and
persists the statement. -/
theorem duplicate_id_counterexample :
    ¬ (dupStore.map Transaction.stripe_id).Nodup
    ∧ (cmdGenerateStatement [acctAcme] dupStore [] "Acme" 2025 1 0 1000
        none).isSome = true
    ∧ (cmdGenerateStatement [acctAcme] dupStore [] "Acme" 2025 1 0 1000
        none).map (fun r => r.1.total_charges) = some 200 := by
  refine ⟨by decide, by decide, by decide⟩

theorem insertByTs_perm (t : Transaction) (l : List Transaction) :
    (insertByTs t l).Perm (t :: l) := by
  induction l with
  | nil => rfl
  | cons h r ih =>
    simp only [insertByTs]
    split_ifs
    · exact ((ih.cons h).trans (List.Perm.swap t h r))
    · rfl

theorem foldl_insertByTs_perm (l : List Transaction) :
    ∀ acc : List Transaction,
      (l.foldl (fun acc t => insertByTs t acc) acc).Perm (l ++ acc) := by
  induction l with
  | nil => intro acc; simp
  | cons t r ih =>
    intro acc
    have h1 : (r.foldl (fun acc t => insertByTs t acc)
        (insertByTs t acc)).Perm (r ++ insertByTs t acc) :=
      ih (insertByTs t acc)
    have h2 : (r ++ insertByTs t acc).Perm (r ++ (t :: acc)) :=
      List.Perm.append_left r (insertByTs_perm t acc)
    have h3 : (r ++ (t :: acc)).Perm (t :: (r ++ acc)) := List.perm_middle
    exact h1.trans (h2.trans h3)

theorem sortByTs_perm (l : List Transaction) : (sortByTs l).Perm l := by
  have h := foldl_insertByTs_perm l []
  simpa [sortByTs] using h

theorem ingestRow_nodup (store : List Transaction) (t : Transaction)
    (h : (store.map Transaction.stripe_id).Nodup) :
    ((ingestRow store t).map Transaction.stripe_id).Nodup := by
  unfold ingestRow
  split_ifs with h1 h2
  · exact h
  · exact h
  · rw [List.map_append, List.nodup_append]
    refine ⟨h, by simp, ?_⟩
    intro x hx
    simp only [List.map_cons, List.map_nil, List.mem_singleton]
    intro hxt
    rw [List.mem_map] at hx
    obtain ⟨u, hu, hxu⟩ := hx
    have : existsId store t.stripe_id = true := by
      unfold existsId
      rw [List.any_eq_true]
      exact ⟨u, hu, by rw [beq_iff_eq, hxu, hxt]⟩
    simp [this] at h2

theorem ingestAll_nodup (store : List Transaction)
    (rows : List Transaction)
    (h : (store.map Transaction.stripe_id).Nodup) :
    ((ingestAll store rows).map Transaction.stripe_id).Nodup := by
  induction rows generalizing store with
  | nil => exact h
  | cons r rest ih => exact ih (ingestRow store r) (ingestRow_nodup store r h)

/-- C5 as amended: the `(account, stripe_id)` uniqueness invariant is
enforced by the Transaction Store at ingestion (a row whose identifier is
already present is skipped), not by statement generation; consequently on
any duplicate-free store — in particular any store built by ingestion —
every period fetch presents pairwise distinct identifiers to aggregation,
while generation itself, fed a duplicate directly, sums it twice. -/
theorem ingestion_uniqueness_amended (store rows : List Transaction)
    (h : (store.map Transaction.stripe_id).Nodup) :
    ((ingestAll store rows).map Transaction.stripe_id).Nodup
    ∧ ∀ (acct : String) (startTs endTs : Int),
        ((fetchPeriodTxns (ingestAll store rows) acct startTs
            endTs).map Transaction.stripe_id).Nodup := by
  refine ⟨ingestAll_nodup store rows h, ?_⟩
  intro acct startTs endTs
  have hnd : ((ingestAll store rows).map Transaction.stripe_id).Nodup :=
    ingestAll_nodup store rows h
  have hsub : ((ingestAll store rows).filter
      (periodPred acct startTs endTs)).Sublist (ingestAll store rows) :=
    List.filter_sublist _
  have hnd2 : (((ingestAll store rows).filter
      (periodPred acct startTs endTs)).map Transaction.stripe_id).Nodup :=
    List.Nodup.sublist (hsub.map Transaction.stripe_id) hnd
  have hperm := (sortByTs_perm ((ingestAll store rows).filter
      (periodPred acct startTs endTs))).map Transaction.stripe_id
  exact (hperm.nodup_iff).mpr hnd2

/-- Witness for C5's amended statement: ingesting a duplicate row on top of
a clean store leaves the period fetch duplicate-free. -/
theorem ingestion_uniqueness_amended_witness :
    ((ingestAll [mkCharge "c1" 50 100 0] dupStore).map
        Transaction.stripe_id).Nodup
    ∧ ∀ (acct : String) (startTs endTs : Int),
        ((fetchPeriodTxns (ingestAll [mkCharge "c1" 50 100 0] dupStore)
            acct startTs endTs).map Transaction.stripe_id).Nodup :=
  ingestion_uniqueness_amended [mkCharge "c1" 50 100 0] dupStore (by decide)

/-! ### C7 and C8 — the 50/30/40 threshold scenarios -/

/-- C7: for a period holding exactly three succeeded charges of 50, 30 and
40 minor units with zero fees, threshold 90 and no cutoff, the simulator
schedules exactly one payout, of amount 120, after the third charge, dated
one day after that charge's timestamp, and resets the rolling balance to 0,
so the final unresolved balance is 0. -/
theorem threshold_crossing_no_cutoff (t1 t2 t3 s e : Int)
    (h12 : t1 < t2) (h23 : t2 < t3) (hs1 : s ≤ t1) (he3 : t3 ≤ e) :
    fetchCharges [mkCharge "c1" 50 t1 0, mkCharge "c2" 30 t2 0,
        mkCharge "c3" 40 t3 0] "acct_1" s e
      = [mkCharge "c1" 50 t1 0, mkCharge "c2" 30 t2 0,
          mkCharge "c3" 40 t3 0]
    ∧ runSimulation 90 none [mkCharge "c1" 50 t1 0, mkCharge "c2" 30 t2 0,
        mkCharge "c3" 40 t3 0]
      = { running_balance := 0,
          payouts_to_create := [⟨t3 + oneDay, 120, 1⟩],
          payout_number := 2,
          events := [SimEvent.payoutScheduled (t3 + oneDay) 120 1] } := by
  have hs2 : s ≤ t2 := hs1.trans h12.le
  have hs3 : s ≤ t3 := hs2.trans h23.le
  have he2 : t2 ≤ e := h23.le.trans he3
  have he1 : t1 ≤ e := h12.le.trans he2
  have h12' : t1 ≤ t2 := h12.le
  have h23' : t2 ≤ t3 := h23.le
  have h13' : t1 ≤ t3 := h12'.trans h23'
  constructor
  · simp [fetchCharges, chargePred, periodPred, mkCharge, sortByTs,
      insertByTs, hs1, hs2, hs3, he1, he2, he3, h12', h23', h13']
  · simp [runSimulation, simStep, initSimState, mkCharge]

/-- Witness for C7 at concrete timestamps 100 < 200 < 300 in period
[0, 1000]. -/
theorem threshold_crossing_no_cutoff_witness :
    fetchCharges [mkCharge "c1" 50 100 0, mkCharge "c2" 30 200 0,
        mkCharge "c3" 40 300 0] "acct_1" 0 1000
      = [mkCharge "c1" 50 100 0, mkCharge "c2" 30 200 0,
          mkCharge "c3" 40 300 0]
    ∧ runSimulation 90 none [mkCharge "c1" 50 100 0, mkCharge "c2" 30 200 0,
        mkCharge "c3" 40 300 0]
      = { running_balance := 0,
          payouts_to_create := [⟨300 + oneDay, 120, 1⟩],
          payout_number := 2,
          events := [SimEvent.payoutScheduled (300 + oneDay) 120 1] } :=
  threshold_crossing_no_cutoff 100 200 300 0 1000 (by decide) (by decide)
    (by decide) (by decide)

/-- C8: with the same three charges and threshold but a cutoff falling
between the second and third charge, the crossing after the third charge is
reported as skipped due to the cutoff — surfaced as its own event, distinct
from a scheduled payout — the rolling balance is not reset (final
unresolved balance 120), and even with `dry_run=false` the run returns
normally, creates no payout transaction and leaves the store unchanged. -/
theorem threshold_crossing_with_cutoff (t1 t2 t3 s e c : Int)
    (h12 : t1 < t2) (h23 : t2 < t3) (hs1 : s ≤ t1) (he3 : t3 ≤ e)
    (hc2 : t2 ≤ c) (hc3 : c < t3) :
    runSimulation 90 (some c) [mkCharge "c1" 50 t1 0, mkCharge "c2" 30 t2 0,
        mkCharge "c3" 40 t3 0]
      = { running_balance := 120,
          payouts_to_create := [],
          payout_number := 1,
          events := [SimEvent.payoutSkippedCutoff (t3 + oneDay) 120] }
    ∧ calculatePayouts [acctAcme] [mkCharge "c1" 50 t1 0,
        mkCharge "c2" 30 t2 0, mkCharge "c3" 40 t3 0] "Acme" 2025 1 s e 90
        (some c) false
      = some ({ chargesProcessed := 3,
                events := [SimEvent.payoutSkippedCutoff (t3 + oneDay) 120],
                decisions := [],
                finalBalance := 120 },
              [mkCharge "c1" 50 t1 0, mkCharge "c2" 30 t2 0,
                mkCharge "c3" 40 t3 0]) := by
  have hs2 : s ≤ t2 := hs1.trans h12.le
  have hs3 : s ≤ t3 := hs2.trans h23.le
  have he2 : t2 ≤ e := h23.le.trans he3
  have he1 : t1 ≤ e := h12.le.trans he2
  have h12' : t1 ≤ t2 := h12.le
  have h23' : t2 ≤ t3 := h23.le
  have h13' : t1 ≤ t3 := h12'.trans h23'
  have h3 : ¬ (t3 ≤ c) := not_le.mpr hc3
  have hfetch : fetchCharges [mkCharge "c1" 50 t1 0, mkCharge "c2" 30 t2 0,
      mkCharge "c3" 40 t3 0] "acct_1" s e
      = [mkCharge "c1" 50 t1 0, mkCharge "c2" 30 t2 0,
          mkCharge "c3" 40 t3 0] := by
    simp [fetchCharges, chargePred, periodPred, mkCharge, sortByTs,
      insertByTs, hs1, hs2, hs3, he1, he2, he3, h12', h23', h13']
  have hsim : runSimulation 90 (some c) [mkCharge "c1" 50 t1 0,
      mkCharge "c2" 30 t2 0, mkCharge "c3" 40 t3 0]
      = { running_balance := 120,
          payouts_to_create := [],
          payout_number := 1,
          events := [SimEvent.payoutSkippedCutoff (t3 + oneDay) 120] } := by
    simp [runSimulation, simStep, initSimState, mkCharge, h3]
  refine ⟨hsim, ?_⟩
  simp [calculatePayouts, acctAcme, hfetch, hsim, createPayouts]

/-- Witness for C8 at concrete timestamps 100 < 200 < 300, cutoff 250. -/
theorem threshold_crossing_with_cutoff_witness :
    runSimulation 90 (some 250) [mkCharge "c1" 50 100 0,
        mkCharge "c2" 30 200 0, mkCharge "c3" 40 300 0]
      = { running_balance := 120,
          payouts_to_create := [],
          payout_number := 1,
          events := [SimEvent.payoutSkippedCutoff (300 + oneDay) 120] }
    ∧ calculatePayouts [acctAcme] [mkCharge "c1" 50 100 0,
        mkCharge "c2" 30 200 0, mkCharge "c3" 40 300 0] "Acme" 2025 1 0 1000
        90 (some 250) false
      = some ({ chargesProcessed := 3,
                events := [SimEvent.payoutSkippedCutoff (300 + oneDay) 120],
                decisions := [],
                finalBalance := 120 },
              [mkCharge "c1" 50 100 0, mkCharge "c2" 30 200 0,
                mkCharge "c3" 40 300 0]) :=
  threshold_crossing_with_cutoff 100 200 300 0 1000 250 (by decide)
    (by decide) (by decide) (by decide) (by decide) (by decide)

/-! ### C2 — idempotency of the payout simulation -/

theorem createPayouts_store_append (year month : Nat)
    (account : StripeAccount) :
    ∀ (ps : List ScheduledPayout) (store : List Transaction),
      ∃ extra, (createPayouts year month account ps store).1 = store ++ extra
        ∧ ∀ t ∈ extra, t.type = TxType.payout := by
  intro ps
  induction ps with
  | nil => intro store; exact ⟨[], by simp [createPayouts], by simp⟩
  | cons p rest ih =>
    intro store
    simp only [createPayouts]
    split_ifs
    · exact ih store
    · obtain ⟨extra, he, hex⟩ :=
        ih (store ++ [mkPayoutTxn year month account p])
      refine ⟨mkPayoutTxn year month account p :: extra, ?_, ?_⟩
      · show (createPayouts year month account rest
            (store ++ [mkPayoutTxn year month account p])).1 = _
        rw [he]
        simp
      · intro t ht
        rcases List.mem_cons.mp ht with h | h
        · rw [h]; rfl
        · exact hex t h

theorem existsId_append_of (store extra : List Transaction) (id : String)
    (h : existsId store id = true) :
    existsId (store ++ extra) id = true := by
  unfold existsId at h ⊢
  rw [List.any_append, h]
  rfl

theorem createPayouts_ids_exist (year month : Nat)
    (account : StripeAccount) :
    ∀ (ps : List ScheduledPayout) (store : List Transaction), ∀ p ∈ ps,
      existsId (createPayouts year month account ps store).1
        (payoutSimId year month account.account_id p.number) = true := by
  intro ps
  induction ps with
  | nil => intro store p hp; cases hp
  | cons q rest ih =>
    intro store p hp
    simp only [createPayouts]
    split_ifs with hex
    · rcases List.mem_cons.mp hp with h | h
      · subst h
        obtain ⟨extra, he, -⟩ :=
          createPayouts_store_append year month account rest store
        show existsId (createPayouts year month account rest store).1 _ = true
        rw [he]
        exact existsId_append_of store extra _ hex
      · exact ih store p h
    · rcases List.mem_cons.mp hp with h | h
      · subst h
        obtain ⟨extra, he, -⟩ := createPayouts_store_append year month
          account rest (store ++ [mkPayoutTxn year month account p])
        show existsId (createPayouts year month account rest
          (store ++ [mkPayoutTxn year month account p])).1 _ = true
        rw [he]
        have hbase : existsId
            (store ++ [mkPayoutTxn year month account p])
            (payoutSimId year month account.account_id p.number) = true := by
          unfold existsId
          rw [List.any_append]
          simp [mkPayoutTxn]
        exact existsId_append_of _ extra _ hbase
      · exact ih (store ++ [mkPayoutTxn year month account q]) p h

theorem createPayouts_all_skipped (year month : Nat)
    (account : StripeAccount) :
    ∀ (ps : List ScheduledPayout) (store : List Transaction),
      (∀ p ∈ ps, existsId store
        (payoutSimId year month account.account_id p.number) = true) →
      createPayouts year month account ps store
        = (store, ps.map (fun p => PayoutDecision.skippedExists
            (payoutSimId year month account.account_id p.number))) := by
  intro ps
  induction ps with
  | nil => intro store h; simp [createPayouts]
  | cons p rest ih =>
    intro store h
    have hp := h p (by simp)
    have hrest := ih store (fun q hq => h q (by simp [hq]))
    simp [createPayouts, hp, hrest]

theorem createPayouts_length (year month : Nat) (account : StripeAccount) :
    ∀ (ps : List ScheduledPayout) (store : List Transaction),
      (createPayouts year month account ps store).2.length = ps.length := by
  intro ps
  induction ps with
  | nil => intro store; simp [createPayouts]
  | cons p rest ih =>
    intro store
    simp only [createPayouts]
    split_ifs <;> simp [ih]

theorem fetchCharges_append_payouts (store extra : List Transaction)
    (acct : String) (startTs endTs : Int)
    (h : ∀ t ∈ extra, t.type = TxType.payout) :
    fetchCharges (store ++ extra) acct startTs endTs
      = fetchCharges store acct startTs endTs := by
  unfold fetchCharges
  congr 1
  rw [List.filter_append]
  have hnil : extra.filter (chargePred acct startTs endTs) = [] := by
    rw [List.filter_eq_nil_iff]
    intro t ht
    have := h t ht
    simp [chargePred, this]
  rw [hnil, List.append_nil]

/-- C2: running the payout simulation twice in succession with
`dry_run=false` over the same transaction store creates each synthetic
payout exactly once: the second run adds no transaction (the store comes
back unchanged) and reports one skipped-already-exists decision per
scheduled payout. -/
theorem simulate_payouts_idempotent (accounts : List StripeAccount)
    (store : List Transaction) (accountName : String) (year month : Nat)
    (startTs endTs : Int) (threshold : Int) (cutoff : Option Int)
    (r1 : SimReport) (store1 : List Transaction)
    (h1 : calculatePayouts accounts store accountName year month startTs
      endTs threshold cutoff false = some (r1, store1)) :
    ∃ r2 : SimReport,
      calculatePayouts accounts store1 accountName year month startTs endTs
          threshold cutoff false = some (r2, store1)
      ∧ (∀ d ∈ r2.decisions, ∃ id, d = PayoutDecision.skippedExists id)
      ∧ r2.decisions.length = r1.decisions.length := by
  cases hacc : accounts.find? (fun a => a.name == accountName) with
  | none => simp [calculatePayouts, hacc] at h1
  | some account =>
    by_cases hemp :
        (fetchCharges store account.account_id startTs endTs).isEmpty
    · simp only [calculatePayouts, hacc, hemp, if_true,
        Option.some.injEq, Prod.mk.injEq] at h1
      obtain ⟨hr1, hs1⟩ := h1
      subst hs1
      refine ⟨{ chargesProcessed := 0, events := [], decisions := [],
                finalBalance := 0 }, ?_, by simp, ?_⟩
      · simp [calculatePayouts, hacc, hemp]
      · rw [← hr1]
    · simp only [calculatePayouts, hacc, hemp, if_false,
        Bool.false_eq_true, Option.some.injEq, Prod.mk.injEq] at h1
      obtain ⟨hr1, hs1⟩ := h1
      obtain ⟨extra, hst, hex⟩ := createPayouts_store_append year month
        account (runSimulation threshold cutoff
          (fetchCharges store account.account_id startTs
            endTs)).payouts_to_create store
      have hfetch : fetchCharges store1 account.account_id startTs endTs
          = fetchCharges store account.account_id startTs endTs := by
        rw [← hs1, hst]
        exact fetchCharges_append_payouts store extra account.account_id
          startTs endTs hex
      have hids : ∀ p ∈ (runSimulation threshold cutoff
          (fetchCharges store account.account_id startTs
            endTs)).payouts_to_create,
          existsId store1
            (payoutSimId year month account.account_id p.number) = true := by
        intro p hp
        rw [← hs1]
        exact createPayouts_ids_exist year month account _ store p hp
      have hcreate := createPayouts_all_skipped year month account
        (runSimulation threshold cutoff
          (fetchCharges store account.account_id startTs
            endTs)).payouts_to_create store1 hids
      refine ⟨{ chargesProcessed :=
                  (fetchCharges store account.account_id startTs
                    endTs).length,
                events := (runSimulation threshold cutoff
                  (fetchCharges store account.account_id startTs
                    endTs)).events,
                decisions := (runSimulation threshold cutoff
                  (fetchCharges store account.account_id startTs
                    endTs)).payouts_to_create.map
                    (fun p => PayoutDecision.skippedExists
                      (payoutSimId year month account.account_id p.number)),
                finalBalance := (runSimulation threshold cutoff
                  (fetchCharges store account.account_id startTs
                    endTs)).running_balance }, ?_, ?_, ?_⟩
      · simp [calculatePayouts, hacc, hfetch, hemp, hcreate]
      · intro d hd
        simp only [List.mem_map] at hd
        obtain ⟨p, -, hpd⟩ := hd
        exact ⟨payoutSimId year month account.account_id p.number,
          hpd.symm⟩
      · rw [← hr1]
        simp [createPayouts_length]

/-- The payout transaction the first run over `storeOne` creates. -/
def payoutTx1 : Transaction := mkPayoutTxn 2025 1 acctAcme ⟨100 + oneDay, 100, 1⟩

/-- The store after the first run over `storeOne`. -/
def storeOneAfter : List Transaction := storeOne ++ [payoutTx1]

/-- The first run's report over `storeOne`. -/
def reportOne : SimReport :=
  { chargesProcessed := 1,
    events := [SimEvent.payoutScheduled (100 + oneDay) 100 1],
    decisions := [PayoutDecision.created "po_sim_202501_acct_1_001" 100],
    finalBalance := 0 }

/-- Witness for C2 at the one-charge store: the second run leaves the store
unchanged and reports the payout as skipped. -/
theorem simulate_payouts_idempotent_witness :
    ∃ r2 : SimReport,
      calculatePayouts [acctAcme] storeOneAfter "Acme" 2025 1 0 1000 90 none
          false = some (r2, storeOneAfter)
      ∧ (∀ d ∈ r2.decisions, ∃ id, d = PayoutDecision.skippedExists id)
      ∧ r2.decisions.length = reportOne.decisions.length :=
  simulate_payouts_idempotent [acctAcme] storeOne "Acme" 2025 1 0 1000 90
    none reportOne storeOneAfter (by rfl)

end StripeSpec
